import Mathlib

/-!
Shallow embedding of the inventory-and-order reconciliation core of the
Life360 dashboard (src/app.py and src/api.py): orders and their workflow
flags, the stock-unit ledger, order-unit assignments, and promotional-item
counters.  Database rows are Lean structures, tables are lists, timestamps
are natural numbers, and each Flask handler's database effect is a pure
function on that state.
-/

namespace Life360

/-- Characters stripped by Python `str.strip()` (ASCII whitespace). -/
def py_strip_chars (l : List Char) : List Char :=
  ((l.dropWhile Char.isWhitespace).reverse.dropWhile Char.isWhitespace).reverse

/-- Python `s.strip()`. -/
def py_strip (s : String) : String := String.mk (py_strip_chars s.data)

/-- Python `s.lower()` (ASCII case folding, enough for the literals the
handlers compare). -/
def py_lower (s : String) : String := String.mk (s.data.map Char.toLower)

/-- Character-list version of `startswith`. -/
def starts_with_chars : List Char → List Char → Bool
  | [], _ => true
  | _ :: _, [] => false
  | p :: ps, c :: cs => p = c && starts_with_chars ps cs

/-- Python `s.startswith(p)`. -/
def py_startswith (s p : String) : Bool := starts_with_chars p.data s.data

/-- Python `a or b` on optional strings: `None` and `""` are falsy. -/
def py_str_or (a b : Option String) : Option String :=
  match a with
  | some s => if s = "" then b else some s
  | none => b

/-- Python `(a or b or "").strip() or None`, the normalisation applied to
free-text fields in the order-update handlers. -/
def norm_or (a b : Option String) : Option String :=
  let s := py_strip ((py_str_or a (py_str_or b (some ""))).getD "")
  if s = "" then none else some s

/-- Python `(a or b or "Pending").strip()` where `b` is the stored status. -/
def py_or3 (a : Option String) (b c : String) : String :=
  (match a with
   | some s => if s = "" then (if b = "" then c else b) else s
   | none => if b = "" then c else b) |> py_strip

/-- The form-value coercion `as_bool` in `orders_update` (src/app.py):
true exactly for the strings on, true, 1, yes; a missing field is false. -/
def as_bool (v : Option String) : Bool :=
  match v with
  | some s => s = "on" || s = "true" || s = "1" || s = "yes"
  | none => false

/-- Case-insensitive check `o.status.lower().startswith("completed")`. -/
def starts_completed (s : String) : Bool :=
  py_startswith (py_lower s) "completed"

/-- Row of the `order` table (src/app.py, class Order), restricted to the
columns the modelled handlers read or write. -/
structure Order where
  id : Nat
  provider : Option String
  name : Option String
  surname : Option String
  practitioner_name : Option String
  status : String
  opt_in_status : Option String
  notes : Option String
  email_status : Option String
  sent_out : Bool
  received_back : Bool
  kit_registered : Bool
  results_sent : Bool
  paid : Bool
  invoiced : Bool
  completed_at : Option Nat
  pop_received : Bool
  payment_received : Bool
  awaiting_payment : Bool
  payment_notes : Option String
  payment_date : Option Nat
deriving Repr, DecidableEq

/-- Conjunction of the six workflow flags, the `all_done` expression of
`orders_update`. -/
def all_six_flags (o : Order) : Bool :=
  o.sent_out && o.received_back && o.kit_registered && o.results_sent &&
    o.paid && o.invoiced

/-- `bucket_order` (src/app.py line 622): the displayed bucket of an order.
The source tests `received_back, kit_registered, results_sent, paid,
invoiced` (five flags, `sent_out` is absent) or the literal status. -/
def bucket_order (o : Order) : String :=
  if (o.received_back && o.kit_registered && o.results_sent && o.paid &&
      o.invoiced) || (o.status == "Completed")
  then "completed" else "pending"

/-- Form payload of `orders_update` (src/app.py, non-JSON branch): every
field is the raw form string, absent fields are `none`. -/
structure OrderUpdateForm where
  practitioner_name : Option String
  status : Option String
  opt_in_status : Option String
  notes : Option String
  sent_out : Option String
  received_back : Option String
  kit_registered : Option String
  results_sent : Option String
  paid : Option String
  invoiced : Option String
  pop_received : Option String
  payment_received : Option String
  awaiting_payment : Option String
  payment_notes : Option String
  email_status : Option String
deriving Repr, DecidableEq

/-- A form with every field absent. -/
def OrderUpdateForm.empty : OrderUpdateForm :=
  ⟨none, none, none, none, none, none, none, none, none, none, none, none,
   none, none, none⟩

/-- The opt-in normalisation of `orders_update`:
`opt_in_val.strip() if opt_in_val and opt_in_val.strip() else None`. -/
def norm_opt_in (v : Option String) : Option String :=
  match v with
  | some s => if py_strip s = "" then none else some (py_strip s)
  | none => none

/-- `orders_update` (src/app.py lines 2451-2505, form branch): overwrites
the six workflow flags from `as_bool` of the form values, then recomputes
completion status and `completed_at` in two consecutive blocks. -/
def orders_update_form (o : Order) (f : OrderUpdateForm) (now : Nat) :
    Order :=
  let practitioner_name := norm_or f.practitioner_name o.practitioner_name
  let status0 := py_or3 f.status o.status "Pending"
  let opt_in_status := norm_opt_in f.opt_in_status
  let notes := norm_or f.notes o.notes
  let s_out := as_bool f.sent_out
  let r_back := as_bool f.received_back
  let k_reg := as_bool f.kit_registered
  let r_sent := as_bool f.results_sent
  let pd := as_bool f.paid
  let inv := as_bool f.invoiced
  let pop := as_bool f.pop_received
  let pay_rec := as_bool f.payment_received
  let await_pay := as_bool f.awaiting_payment
  let payment_notes := norm_or f.payment_notes o.payment_notes
  let payment_date :=
    if as_bool f.payment_received && o.payment_date.isNone
    then some now else o.payment_date
  let all_done := s_out && r_back && k_reg && r_sent && pd && inv
  let status1 :=
    if all_done && !(starts_completed status0) then "Completed" else status0
  let completed_at1 :=
    if starts_completed status1 && o.completed_at.isNone
    then some now else o.completed_at
  let completed_at2 :=
    if starts_completed status1
    then (if completed_at1.isNone then some now else completed_at1)
    else none
  let email_status := norm_or f.email_status o.email_status
  { o with
    practitioner_name := practitioner_name, status := status1,
    opt_in_status := opt_in_status, notes := notes,
    sent_out := s_out, received_back := r_back, kit_registered := k_reg,
    results_sent := r_sent, paid := pd, invoiced := inv,
    pop_received := pop, payment_received := pay_rec,
    awaiting_payment := await_pay, payment_notes := payment_notes,
    payment_date := payment_date, completed_at := completed_at2,
    email_status := email_status }

/-- JSON payload of `orders_update` (src/app.py, `request.is_json` branch):
text fields are optional strings, flags are optional booleans, and
`data.get(flag, False)` turns an absent flag into false. -/
structure OrderUpdateJson where
  practitioner_name : Option String
  status : Option String
  opt_in_status : Option String
  notes : Option String
  sent_out : Option Bool
  received_back : Option Bool
  kit_registered : Option Bool
  results_sent : Option Bool
  paid : Option Bool
  invoiced : Option Bool
  pop_received : Option Bool
  payment_received : Option Bool
  awaiting_payment : Option Bool
  payment_notes : Option String
deriving Repr, DecidableEq

/-- `orders_update` (src/app.py lines 2404-2449, JSON branch). -/
def orders_update_json (o : Order) (j : OrderUpdateJson) (now : Nat) :
    Order :=
  let practitioner_name := norm_or j.practitioner_name o.practitioner_name
  let status0 := py_or3 j.status o.status "Pending"
  let opt_in_status := norm_opt_in j.opt_in_status
  let notes := norm_or j.notes o.notes
  let s_out := j.sent_out.getD false
  let r_back := j.received_back.getD false
  let k_reg := j.kit_registered.getD false
  let r_sent := j.results_sent.getD false
  let pd := j.paid.getD false
  let inv := j.invoiced.getD false
  let pop := j.pop_received.getD false
  let pay_rec := j.payment_received.getD false
  let await_pay := j.awaiting_payment.getD false
  let payment_notes := norm_or j.payment_notes o.payment_notes
  let payment_date :=
    if j.payment_received.getD false && o.payment_date.isNone
    then some now else o.payment_date
  let all_done := s_out && r_back && k_reg && r_sent && pd && inv
  let status1 :=
    if all_done && !(starts_completed status0) then "Completed" else status0
  let completed_at1 :=
    if starts_completed status1 && o.completed_at.isNone
    then some now
    else if !(starts_completed status1) then none
    else o.completed_at
  { o with
    practitioner_name := practitioner_name, status := status1,
    opt_in_status := opt_in_status, notes := notes,
    sent_out := s_out, received_back := r_back, kit_registered := k_reg,
    results_sent := r_sent, paid := pd, invoiced := inv,
    pop_received := pop, payment_received := pay_rec,
    awaiting_payment := await_pay, payment_notes := payment_notes,
    payment_date := payment_date, completed_at := completed_at1 }

/-- Workflow sub-object of the REST payload (src/api.py `update_order`). -/
structure ApiWorkflow where
  sent_out : Option Bool
  received_back : Option Bool
  kit_registered : Option Bool
  results_sent : Option Bool
  paid : Option Bool
  invoiced : Option Bool
deriving Repr, DecidableEq

/-- JSON body of `PUT /api/orders/<id>` (src/api.py `update_order`):
only keys present in the body are applied. -/
structure ApiOrderUpdate where
  name : Option String
  surname : Option String
  practitioner_name : Option String
  status : Option String
  notes : Option String
  workflow : Option ApiWorkflow
deriving Repr, DecidableEq

/-- `update_order` (src/api.py lines 279-312): applies only the provided
fields; workflow flags absent from the `workflow` object keep their stored
values; no completion status recomputation is performed. -/
def api_update_order (o : Order) (d : ApiOrderUpdate) : Order :=
  let o := match d.name with
    | some s => { o with name := some (py_strip s) }
    | none => o
  let o := match d.surname with
    | some s => { o with surname := some (py_strip s) }
    | none => o
  let o := match d.practitioner_name with
    | some s =>
        { o with practitioner_name :=
            if py_strip s = "" then none else some (py_strip s) }
    | none => o
  let o := match d.status with
    | some s => { o with status := s }
    | none => o
  let o := match d.notes with
    | some s => { o with notes := if py_strip s = "" then none else some (py_strip s) }
    | none => o
  match d.workflow with
  | none => o
  | some w =>
      { o with
        sent_out := w.sent_out.getD o.sent_out,
        received_back := w.received_back.getD o.received_back,
        kit_registered := w.kit_registered.getD o.kit_registered,
        results_sent := w.results_sent.getD o.results_sent,
        paid := w.paid.getD o.paid,
        invoiced := w.invoiced.getD o.invoiced }

/-- Row of the `stock_item` table (src/app.py, class StockItem). -/
structure StockItem where
  id : Nat
  name : String
  expiry_date : Option Nat
  received_date : Option Nat
  code_type : String
  current_stock : Int
  provider : Option String
deriving Repr, DecidableEq

/-- Row of the `stock_unit` table (src/app.py, class StockUnit).  The
`barcode` column carries no uniqueness constraint in the schema. -/
structure StockUnit where
  id : Nat
  barcode : String
  batch_number : Option String
  status : String
  item_id : Nat
  last_update : Nat
  promotional_use : Bool
  signed_out_by : Option String
  signed_out_date : Option Nat
  promotional_notes : Option String
  returned : Bool
  returned_by : Option String
  returned_date : Option Nat
  return_reason : Option String
deriving Repr, DecidableEq

/-- Row of the `order_unit` table (src/app.py, class OrderUnit). -/
structure OrderUnit where
  id : Nat
  order_id : Nat
  unit_id : Nat
  assigned_at : Nat
deriving Repr, DecidableEq

/-- Row of the `order_item` table (src/app.py, class OrderItem). -/
structure OrderItem where
  id : Nat
  order_id : Nat
  sku : String
  qty : Nat
deriving Repr, DecidableEq

/-- The relational state the modelled handlers act on: one list per table. -/
structure DB where
  items : List StockItem
  units : List StockUnit
  orders : List Order
  order_items : List OrderItem
  order_units : List OrderUnit
deriving Repr, DecidableEq

/-- A fresh unit as created by the add handlers: status In Stock, no
promotional or return metadata. -/
def mk_unit (id : Nat) (barcode : String) (batch_number : Option String)
    (item_id now : Nat) : StockUnit :=
  ⟨id, barcode, batch_number, "In Stock", item_id, now, false, none, none,
   none, false, none, none, none⟩

/-- Number of OrderUnit rows referencing a given unit. -/
def refs_count (db : DB) (uid : Nat) : Nat :=
  (db.order_units.filter (fun ou => ou.unit_id = uid)).length

/-- `add_unit_one` (src/app.py lines 1325-1345): refuses an empty barcode
and a barcode equal to that of any existing unit of any item; otherwise it
may update the item's dates and appends one In Stock unit. -/
def add_unit_one (db : DB) (item_id : Nat) (barcode_raw batch_raw : String)
    (expiry received : Option Nat) (new_id now : Nat) : DB × Option String :=
  match db.items.find? (fun it => it.id = item_id) with
  | none => (db, some "404")
  | some item =>
    let barcode := py_strip barcode_raw
    let batch_number := if py_strip batch_raw = "" then none else some (py_strip batch_raw)
    if barcode = "" then (db, some "Scan or enter a barcode.")
    else if db.units.any (fun u => u.barcode = barcode) then
      (db, some "This barcode already exists.")
    else
      let item' := { item with
        expiry_date := match expiry with | some d => some d | none => item.expiry_date,
        received_date := match received with | some d => some d | none => item.received_date }
      ({ db with
         items := db.items.map (fun it => if it.id = item_id then item' else it),
         units := db.units ++ [mk_unit new_id barcode batch_number item_id now] },
       none)

/-- Separator set of the bulk-line regex `[,\t|]+`. -/
def is_sep (c : Char) : Bool := c = ',' || c = '\t' || c = '|'

/-- Skips a maximal run of separators. -/
def drop_seps : List Char → List Char
  | [] => []
  | c :: rest => if is_sep c then drop_seps rest else c :: rest

/-- `re.split` with the separator class and maxsplit 1: the text before the
first separator run, and the remainder after that run when a separator
occurs. -/
def split_first : List Char → List Char × Option (List Char)
  | [] => ([], none)
  | c :: rest =>
    if is_sep c then ([], some (drop_seps rest))
    else
      let r := split_first rest
      (c :: r.1, r.2)

/-- One line of the bulk form: strip, split on the first separator run,
strip the pieces and drop empty ones; the first piece is the barcode, the
second (when present) the batch number, else the form-level default.
Returns `none` when the line yields no barcode (skipped). -/
def parse_bulk_line (line : String) (default_batch : Option String) :
    Option (String × Option String) :=
  let r := split_first (py_strip line).data
  let pieces := match r.2 with
    | none => [String.mk r.1]
    | some b => [String.mk r.1, String.mk b]
  let parts := (pieces.map py_strip).filter (fun p => p ≠ "")
  match parts with
  | [] => none
  | [bc] => some (bc, default_batch)
  | bc :: bn :: _ => some (bc, some bn)

/-- The per-line loop of `add_units_bulk`: a line whose barcode already
belongs to some accumulated unit is skipped silently, otherwise one
In Stock unit is appended. -/
def bulk_loop (item_id now : Nat) (default_batch : Option String) :
    List String → List StockUnit → Nat → List StockUnit × Nat
  | [], units, n => (units, n)
  | line :: rest, units, n =>
    match parse_bulk_line line default_batch with
    | none => bulk_loop item_id now default_batch rest units n
    | some (bc, bn) =>
      if units.any (fun u => u.barcode = bc) then
        bulk_loop item_id now default_batch rest units n
      else
        bulk_loop item_id now default_batch rest
          (units ++ [mk_unit n bc bn item_id now]) (n + 1)

/-- `add_units_bulk` (src/app.py lines 1347-1376): optional item-date
updates, then the skip-duplicates line loop. -/
def add_units_bulk (db : DB) (item_id : Nat) (raw_lines : List String)
    (default_batch_raw : String) (expiry received : Option Nat)
    (id_start now : Nat) : DB × Option String :=
  match db.items.find? (fun it => it.id = item_id) with
  | none => (db, some "404")
  | some item =>
    let default_batch :=
      if py_strip default_batch_raw = "" then none else some (py_strip default_batch_raw)
    let item' := { item with
      expiry_date := match expiry with | some d => some d | none => item.expiry_date,
      received_date := match received with | some d => some d | none => item.received_date }
    let r := bulk_loop item_id now default_batch raw_lines db.units id_start
    ({ db with
       items := db.items.map (fun it => if it.id = item_id then item' else it),
       units := r.1 }, none)

/-- `delete_unit` (src/app.py lines 1378-1387): refuses while any
OrderUnit references the unit, leaving the state untouched. -/
def delete_unit (db : DB) (unit_id : Nat) : DB × Option String :=
  match db.units.find? (fun u => u.id = unit_id) with
  | none => (db, some "404")
  | some u =>
    if db.order_units.any (fun ou => ou.unit_id = unit_id) then
      (db, some "Cannot delete: unit assigned to order.")
    else
      ({ db with units := db.units.filter (fun v => v.id ≠ u.id) }, none)

/-- `delete_item` (src/app.py lines 1613-1631): refuses while any
OrderUnit joins to a unit of the item; otherwise deletes the item's units
and the item. -/
def delete_item (db : DB) (item_id : Nat) : DB × Option String :=
  match db.items.find? (fun it => it.id = item_id) with
  | none => (db, some "404")
  | some _ =>
    if db.order_units.any (fun ou =>
        db.units.any (fun u => u.id = ou.unit_id && u.item_id = item_id)) then
      (db, some "Cannot delete: some units are assigned to orders.")
    else
      ({ db with
         units := db.units.filter (fun u => u.item_id ≠ item_id),
         items := db.items.filter (fun it => it.id ≠ item_id) }, none)

/-- `sign_out_promotional` (src/app.py lines 1389-1410): rejects blank
signer or purpose; otherwise sets the promotional metadata and status
Promotional Use.  The handler never inspects the unit's current status. -/
def sign_out_promotional (u : StockUnit)
    (signed_out_by_raw promotional_notes_raw : String) (now : Nat) :
    Except String StockUnit :=
  let signed_out_by := py_strip signed_out_by_raw
  let promotional_notes := py_strip promotional_notes_raw
  if signed_out_by = "" || promotional_notes = "" then
    .error "Please provide your name and purpose for promotional use."
  else
    .ok { u with
      promotional_use := true,
      signed_out_by := some signed_out_by,
      signed_out_date := some now,
      promotional_notes := some promotional_notes,
      status := "Promotional Use",
      last_update := now }

/-- `return_promotional` (src/app.py lines 1412-1434): rejects blank
returner or reason; otherwise records the return and sets status In Stock,
again without inspecting the current status. -/
def return_promotional (u : StockUnit)
    (returned_by_raw return_reason_raw : String) (now : Nat) :
    Except String StockUnit :=
  let returned_by := py_strip returned_by_raw
  let return_reason := py_strip return_reason_raw
  if returned_by = "" || return_reason = "" then
    .error "Please provide your name and condition notes."
  else
    .ok { u with
      returned := true,
      returned_by := some returned_by,
      returned_date := some now,
      return_reason := some return_reason,
      promotional_use := false,
      status := "In Stock",
      last_update := now }

/-- `assign_unit` (src/app.py lines 2523-2545): looks the unit up by
barcode, requires status In Stock, creates an OrderUnit and flips the
status to Assigned. -/
def assign_unit (db : DB) (order_id : Nat) (barcode_raw : String)
    (new_ou_id now : Nat) : Except String DB :=
  let barcode := py_strip barcode_raw
  if barcode = "" then .error "Scan or enter a barcode."
  else
    match db.units.find? (fun u => u.barcode = barcode) with
    | none => .error "Barcode not found in stock."
    | some u =>
      if u.status ≠ "In Stock" then .error "Unit is not available."
      else
        .ok { db with
          units := db.units.map (fun v =>
            if v.id = u.id then { v with status := "Assigned", last_update := now }
            else v),
          order_units := db.order_units ++ [⟨new_ou_id, order_id, u.id, now⟩] }

/-- `unassign_unit` (src/app.py lines 2547-2558): aborts when the
OrderUnit belongs to a different order; otherwise deletes it and sets the
unit back to In Stock. -/
def unassign_unit (db : DB) (order_id ou_id now : Nat) : Except String DB :=
  match db.order_units.find? (fun ou => ou.id = ou_id) with
  | none => .error "404"
  | some ou =>
    if ou.order_id ≠ order_id then .error "400"
    else
      .ok { db with
        units := db.units.map (fun v =>
          if v.id = ou.unit_id then { v with status := "In Stock", last_update := now }
          else v),
        order_units := db.order_units.filter (fun x => x.id ≠ ou_id) }

/-- `delete_order` (src/app.py lines 2562-2583): every unit referenced by
an OrderUnit of the order reverts to In Stock, those OrderUnits are
deleted, then the order and (by cascade) its OrderItems are deleted. -/
def delete_order (db : DB) (order_id now : Nat) : DB × Option String :=
  match db.orders.find? (fun o => o.id = order_id) with
  | none => (db, some "Order not found.")
  | some _ =>
    ({ db with
       units := db.units.map (fun u =>
         if db.order_units.any (fun ou =>
             ou.order_id = order_id && ou.unit_id = u.id)
         then { u with status := "In Stock", last_update := now } else u),
       order_units := db.order_units.filter (fun ou => ou.order_id ≠ order_id),
       orders := db.orders.filter (fun o => o.id ≠ order_id),
       order_items := db.order_items.filter (fun it => it.order_id ≠ order_id) },
     none)

/-- Matches `StockUnit.query.filter_by(item_id=item_id, status="In Stock")`. -/
def is_available (item_id : Nat) (u : StockUnit) : Bool :=
  u.item_id = item_id && u.status = "In Stock"

/-- Number of In Stock units of an item. -/
def in_stock_count (units : List StockUnit) (item_id : Nat) : Nat :=
  (units.filter (is_available item_id)).length

/-- The unit-claim step of `create_order` (src/app.py lines 2289-2297):
the query `filter_by(item_id, status="In Stock").limit(q)` selects the
first `q` available units in table order; each selected unit becomes
Assigned.  Returns the updated unit list and the ids of the claimed
units. -/
def claim_units (item_id now : Nat) : Nat → List StockUnit →
    List StockUnit × List Nat
  | _, [] => ([], [])
  | 0, us => (us, [])
  | Nat.succ q, u :: us =>
    if is_available item_id u then
      let r := claim_units item_id now q us
      ({ u with status := "Assigned", last_update := now } :: r.1, u.id :: r.2)
    else
      let r := claim_units item_id now (Nat.succ q) us
      (u :: r.1, r.2)

/-- OrderUnit rows created for the claimed unit ids, with fresh ids. -/
def mk_order_units (order_id now : Nat) : Nat → List Nat → List OrderUnit
  | _, [] => []
  | i, uid :: rest => ⟨i, order_id, uid, now⟩ :: mk_order_units order_id now (i + 1) rest

/-- One `(stock_item, qty)` line of `create_order` (src/app.py lines
2282-2300): claims up to `q` available units of the item, creates an
OrderUnit per claimed unit, and flags a non-fatal warning when fewer than
`q` were available. -/
def assign_units_line (db : DB) (order_id item_id q ou_id_start now : Nat) :
    DB × Nat × Bool :=
  let r := claim_units item_id now q db.units
  let assigned := r.2.length
  let warn := assigned < q
  ({ db with
     units := r.1,
     order_units := db.order_units ++ mk_order_units order_id now ou_id_start r.2 },
   assigned, warn)

/-- Row of the `promotional_item` table (src/app.py, class
PromotionalItem), restricted to the columns the sign-out and return
handlers touch. -/
structure PromotionalItem where
  id : Nat
  name : String
  category : String
  quantity : Int
  available_quantity : Int
  signed_out : Bool
  signed_out_by : Option String
  signed_out_date : Option Nat
  sign_out_notes : Option String
  expected_return_date : Option Nat
  last_returned_by : Option String
  last_returned_date : Option Nat
  return_notes : Option String
deriving Repr, DecidableEq

/-- `sign_out_promotional_item` (src/app.py lines 1529-1554): fails when
no unit is available, rejects blank name or purpose, else decrements
`available_quantity` and records the sign-out. -/
def sign_out_promotional_item (item : PromotionalItem)
    (signed_out_by_raw sign_out_notes_raw : String)
    (expected_return : Option Nat) (now : Nat) :
    Except String PromotionalItem :=
  if item.available_quantity < 1 then
    .error "No items available to sign out."
  else
    let signed_out_by := py_strip signed_out_by_raw
    let sign_out_notes := py_strip sign_out_notes_raw
    if signed_out_by = "" || sign_out_notes = "" then
      .error "Please provide your name and purpose."
    else
      .ok { item with
        signed_out := true,
        signed_out_by := some signed_out_by,
        signed_out_date := some now,
        sign_out_notes := some sign_out_notes,
        expected_return_date := expected_return,
        available_quantity := item.available_quantity - 1 }

/-- `return_promotional_item` (src/app.py lines 1556-1582): rejects blank
name or condition notes, else increments `available_quantity` without any
upper-bound guard, records the return, and clears the sign-out fields. -/
def return_promotional_item (item : PromotionalItem)
    (returned_by_raw return_notes_raw : String) (now : Nat) :
    Except String PromotionalItem :=
  let returned_by := py_strip returned_by_raw
  let return_notes := py_strip return_notes_raw
  if returned_by = "" || return_notes = "" then
    .error "Please provide your name and condition notes."
  else
    .ok { item with
      signed_out := false,
      last_returned_by := some returned_by,
      last_returned_date := some now,
      return_notes := some return_notes,
      available_quantity := item.available_quantity + 1,
      signed_out_by := none,
      signed_out_date := none,
      sign_out_notes := none,
      expected_return_date := none }

/-! Concrete example rows used to evaluate the model. -/

/-- A freshly created pending order with all flags false. -/
def sample_order : Order :=
  ⟨1, some "Geneway", some "Thandi", some "Mkhize", none, "Pending", none,
   none, none, false, false, false, false, false, false, none, false, false,
   false, none, none⟩

/-- A form that sets the status field to Completed and provides nothing
else (in particular none of the six flag fields). -/
def form_status_completed : OrderUpdateForm :=
  { OrderUpdateForm.empty with status := some "Completed" }

/-- An order whose kit has been sent out. -/
def order_sent_out : Order := { sample_order with sent_out := true }

/-- An order with five of the six flags true and `sent_out` false. -/
def order_five_flags : Order :=
  { sample_order with
    received_back := true, kit_registered := true,
    results_sent := true, paid := true, invoiced := true }

/-- A stock unit in the terminal status Used. -/
def used_unit_sample : StockUnit :=
  { mk_unit 3 "W3" none 10 0 with status := "Used" }

/-- A promotional item fully in stock: quantity 1, available 1. -/
def banner_sample : PromotionalItem :=
  ⟨7, "Banner", "Banners", 1, 1, false, none, none, none, none, none, none,
   none⟩

/-- Status of the unit returned by a ledger operation, if it succeeded. -/
def unit_status_of : Except String StockUnit → Option String
  | .ok u => some u.status
  | .error _ => none

/-- Available quantity after a promotional-item operation, if it
succeeded. -/
def promo_avail_of : Except String PromotionalItem → Option Int
  | .ok it => some it.available_quantity
  | .error _ => none

/-- The barcodes of all stock units are pairwise distinct. -/
def barcodes_nodup (units : List StockUnit) : Prop :=
  (units.map (fun u => u.barcode)).Nodup

/-- A unit-creation request: one scan (`add_unit_one`) or one bulk paste
(`add_units_bulk`). -/
inductive AddOp where
  | one (item_id : Nat) (barcode batch : String) (expiry received : Option Nat)
      (new_id now : Nat)
  | bulk (item_id : Nat) (lines : List String) (default_batch : String)
      (expiry received : Option Nat) (id_start now : Nat)

/-- State reached after one unit-creation request (errors leave the state
as returned by the handler). -/
def apply_add (db : DB) (op : AddOp) : DB :=
  match op with
  | .one a b c d e f g => (add_unit_one db a b c d e f g).1
  | .bulk a b c d e f g => (add_units_bulk db a b c d e f g).1

/-- A catalog item for the examples. -/
def widget_item : StockItem := ⟨10, "Widget", none, none, "Kit", 0, none⟩

/-- A database holding one item and one In Stock unit. -/
def db_one_unit : DB := ⟨[widget_item], [mk_unit 1 "W1" none 10 0], [], [], []⟩

/-- A unit currently assigned to an order. -/
def assigned_unit : StockUnit :=
  { mk_unit 1 "W1" none 10 0 with status := "Assigned" }

/-- A database in which the only unit is referenced by an OrderUnit. -/
def db_in_use : DB :=
  ⟨[widget_item], [assigned_unit], [sample_order], [], [⟨100, 1, 1, 0⟩]⟩

/-- A database with order 42 holding two assigned units and an order line
item, ready for deletion. -/
def db_order42 : DB :=
  ⟨[widget_item],
   [{ mk_unit 1 "W1" none 10 0 with status := "Assigned" },
    { mk_unit 2 "W2" none 10 0 with status := "Assigned" },
    mk_unit 3 "W3" none 10 0],
   [{ sample_order with id := 42 }],
   [⟨1, 42, "KIT-GEN-01", 2⟩],
   [⟨100, 42, 1, 0⟩, ⟨101, 42, 2, 0⟩]⟩

/-! Theorems. -/

/-- Helper: the literal written by the completion rule passes the
case-insensitive check. -/
theorem starts_completed_lit : starts_completed "Completed" = true := by
  decide

/-- Helper: a chained implication over six booleans yields the disjunction
produced by splitting the completion rule. -/
theorem or_of_chain (a b c d e f : Bool) (P : Prop)
    (h : a = true → b = true → c = true → d = true → e = true → f = true → P) :
    P ∨ ((((a = false ∨ b = false) ∨ c = false) ∨ d = false) ∨ e = false) ∨
      f = false := by
  cases a <;> cases b <;> cases c <;> cases d <;> cases e <;> cases f <;>
    simp_all

/-- Claim C1, counterexample: submitting a form whose status field is
"Completed" while all six flag fields are absent leaves the stored status
equal to "Completed" with all six workflow flags false, so the claimed
biconditional fails after this workflow-flag update. -/
theorem C1_status_without_flags :
    ¬ (((orders_update_form sample_order form_status_completed 7).status =
          "Completed") ↔
        all_six_flags (orders_update_form sample_order form_status_completed 7)
          = true) := by
  decide

/-- Claim C1, amended: after either branch of `orders_update`, if all six
flags are true the resulting status begins with "completed"
(case-insensitively), and `completed_at` is non-null exactly when the
resulting status begins with "completed"; the converse direction of the
original claim (status Completed implies all flags) does not hold. -/
theorem C1_amended (o : Order) (f : OrderUpdateForm) (j : OrderUpdateJson)
    (now now2 : Nat) :
    ((starts_completed (orders_update_form o f now).status ||
        !(all_six_flags (orders_update_form o f now))) = true ∧
      (orders_update_form o f now).completed_at.isSome =
        starts_completed (orders_update_form o f now).status) ∧
    ((starts_completed (orders_update_json o j now2).status ||
        !(all_six_flags (orders_update_json o j now2))) = true ∧
      (orders_update_json o j now2).completed_at.isSome =
        starts_completed (orders_update_json o j now2).status) := by
  refine ⟨⟨?_, ?_⟩, ⟨?_, ?_⟩⟩ <;>
    simp only [orders_update_form, orders_update_json, all_six_flags] <;>
    (repeat' split) <;>
    simp_all [starts_completed_lit, Option.isSome_iff_ne_none] <;>
    first
      | tauto
      | exact or_of_chain _ _ _ _ _ _ _ (by assumption)

/-- Helper: the two bucket labels differ. -/
theorem pending_ne_completed : ("pending" : String) ≠ "completed" := by
  decide

/-- Claim C2, counterexample: the form branch of `orders_update` sets all
six flags from the payload with absent fields read as false, so updating an
order whose `sent_out` flag is true with a payload that does not mention
`sent_out` flips the flag to false instead of keeping the stored value. -/
theorem C2_absent_flag_overwritten :
    (orders_update_form order_sent_out OrderUpdateForm.empty 0).sent_out ≠
      order_sent_out.sent_out := by
  decide

/-- Claim C2, amended: the REST handler `update_order` (src/api.py) does
apply only the provided subset — each resulting workflow flag equals the
payload value when one is present and the stored value otherwise — whereas
the web-form handler overwrites all six flags (see the counterexample). -/
theorem C2_amended (o : Order) (d : ApiOrderUpdate) :
    (api_update_order o d).sent_out =
      ((d.workflow.bind ApiWorkflow.sent_out).getD o.sent_out) ∧
    (api_update_order o d).received_back =
      ((d.workflow.bind ApiWorkflow.received_back).getD o.received_back) ∧
    (api_update_order o d).kit_registered =
      ((d.workflow.bind ApiWorkflow.kit_registered).getD o.kit_registered) ∧
    (api_update_order o d).results_sent =
      ((d.workflow.bind ApiWorkflow.results_sent).getD o.results_sent) ∧
    (api_update_order o d).paid =
      ((d.workflow.bind ApiWorkflow.paid).getD o.paid) ∧
    (api_update_order o d).invoiced =
      ((d.workflow.bind ApiWorkflow.invoiced).getD o.invoiced) := by
  obtain ⟨n, sn, pn, st, nt, wf⟩ := d
  cases n <;> cases sn <;> cases pn <;> cases st <;> cases nt <;>
    cases wf <;> simp [api_update_order]

/-- Claim C3, counterexample: an order with `sent_out` false, the other
five flags true and status "Pending" is bucketed "completed" by
`bucket_order`, although not all six flags are true and the status literal
is not "Completed". -/
theorem C3_five_flags_bucket_completed :
    ¬ ((bucket_order order_five_flags = "completed") ↔
        (all_six_flags order_five_flags = true ∨
          order_five_flags.status = "Completed")) := by
  decide

/-- Claim C3, amended: `bucket_order` places an order in bucket
"completed" iff the five flags received_back, kit_registered,
results_sent, paid and invoiced are all true or the status literal equals
"Completed" — `sent_out` is not consulted; otherwise the bucket is
"pending". -/
theorem C3_amended (o : Order) :
    (bucket_order o = "completed" ↔
      ((o.received_back && o.kit_registered && o.results_sent && o.paid &&
          o.invoiced) = true ∨ o.status = "Completed")) ∧
    (bucket_order o = "pending" ↔
      ¬ ((o.received_back && o.kit_registered && o.results_sent && o.paid &&
          o.invoiced) = true ∨ o.status = "Completed")) := by
  constructor <;>
  · rw [bucket_order]
    split
    next h => simp_all [Bool.or_eq_true, beq_iff_eq, pending_ne_completed]
    next h => simp_all [Bool.or_eq_true, beq_iff_eq, pending_ne_completed]

/-- Claim C4, the code at the failing input: a promotional item with
quantity 1 and available_quantity 1 accepts a return and ends with
available_quantity 2, above its quantity — the upper bound of the claimed
invariant is not guarded by `return_promotional_item`. -/
theorem C4_return_exceeds_quantity :
    promo_avail_of (return_promotional_item banner_sample "Bob" "good" 3) =
      some 2 ∧
    banner_sample.quantity = 1 ∧ banner_sample.available_quantity = 1 := by
  decide

/-- Claim C5, counterexample: `sign_out_promotional` never inspects the
unit's current status, so a unit in the terminal status "Used" is moved to
"Promotional Use" by a sign-out with non-empty signer and note. -/
theorem C5_sign_out_from_used :
    unit_status_of (sign_out_promotional used_unit_sample "Ann" "show" 5) =
      some "Promotional Use" ∧
    used_unit_sample.status = "Used" := by
  decide

/-- Claim C5, amended: for any current status (Used included), promotional
sign-out with non-blank signer and note succeeds and sets status
"Promotional Use", and promotional return with non-blank returner and
reason succeeds and sets status "In Stock"; the ledger guards only the
non-emptiness of the inputs, not the source state. -/
theorem C5_amended (u : StockUnit) (sb pn rb rr : String) (now now2 : Nat)
    (h1 : py_strip sb ≠ "") (h2 : py_strip pn ≠ "")
    (h3 : py_strip rb ≠ "") (h4 : py_strip rr ≠ "") :
    unit_status_of (sign_out_promotional u sb pn now) =
      some "Promotional Use" ∧
    unit_status_of (return_promotional u rb rr now2) = some "In Stock" := by
  rw [sign_out_promotional, return_promotional]
  simp [h1, h2, h3, h4, unit_status_of]

/-- Claim C5, amended, witness at a concrete Used unit. -/
theorem C5_amended_witness :
    unit_status_of (sign_out_promotional used_unit_sample "Ann" "show" 5) =
      some "Promotional Use" ∧
    unit_status_of (return_promotional used_unit_sample "Bob" "fine" 6) =
      some "In Stock" :=
  C5_amended used_unit_sample "Ann" "show" "Bob" "fine" 5 6
    (by decide) (by decide) (by decide) (by decide)

/-- Helper: a unit drawn from a list in which every unit with the target
id had its status set carries that status whenever its id matches. -/
theorem status_of_map_set (units : List StockUnit) (tid : Nat) (s : String)
    (t : Nat) (v : StockUnit)
    (hv : v ∈ units.map (fun w =>
      if w.id = tid then { w with status := s, last_update := t } else w))
    (hid : v.id = tid) : v.status = s := by
  rw [List.mem_map] at hv
  obtain ⟨w, hw, rfl⟩ := hv
  by_cases h : w.id = tid <;> simp_all

/-- Claim C6: starting from a unit found In Stock by barcode with no
OrderUnit referencing it and a fresh OrderUnit id, `assign_unit` succeeds,
the unit's status becomes Assigned and exactly one OrderUnit references
it; `unassign_unit` on that OrderUnit then succeeds, the status reverts to
In Stock and no OrderUnit references the unit. -/
theorem C6_assign_unassign (db0 : DB) (order_id : Nat) (b : String)
    (u : StockUnit) (ou_id now now2 : Nat)
    (hfind : db0.units.find? (fun v => v.barcode = py_strip b) = some u)
    (hb : py_strip b ≠ "")
    (hstock : u.status = "In Stock")
    (hrefs : refs_count db0 u.id = 0)
    (hfresh : ∀ ou ∈ db0.order_units, ou.id ≠ ou_id) :
    ∃ db1, assign_unit db0 order_id b ou_id now = .ok db1 ∧
      (∀ v ∈ db1.units, v.id = u.id → v.status = "Assigned") ∧
      refs_count db1 u.id = 1 ∧
      ∃ db2, unassign_unit db1 order_id ou_id now2 = .ok db2 ∧
        (∀ v ∈ db2.units, v.id = u.id → v.status = "In Stock") ∧
        refs_count db2 u.id = 0 := by
  refine ⟨{ db0 with
      units := db0.units.map (fun v =>
        if v.id = u.id then { v with status := "Assigned", last_update := now }
        else v),
      order_units := db0.order_units ++ [⟨ou_id, order_id, u.id, now⟩] },
    ?_, ?_, ?_, ?_⟩
  · simp [assign_unit, hb, hfind, hstock]
  · exact fun v hv hid => status_of_map_set _ _ _ _ v hv hid
  · simp only [refs_count, List.filter_append] at hrefs ⊢
    simp [hrefs]
  · have hfind2 : (db0.order_units ++
        [(⟨ou_id, order_id, u.id, now⟩ : OrderUnit)]).find?
          (fun ou => ou.id = ou_id) = some ⟨ou_id, order_id, u.id, now⟩ := by
      rw [List.find?_append]
      have h1 : db0.order_units.find? (fun ou => ou.id = ou_id) = none :=
        List.find?_eq_none.mpr (by intro x hx; simpa using hfresh x hx)
      rw [h1]
      simp
    have hob : (db0.order_units ++
        [(⟨ou_id, order_id, u.id, now⟩ : OrderUnit)]).filter
          (fun x => x.id ≠ ou_id) = db0.order_units := by
      rw [List.filter_append]
      simp
      exact hfresh
    refine ⟨{ db0 with
        units := (db0.units.map (fun v =>
          if v.id = u.id then
            { v with status := "Assigned", last_update := now }
          else v)).map (fun v =>
          if v.id = u.id then
            { v with status := "In Stock", last_update := now2 }
          else v),
        order_units := db0.order_units }, ?_, ?_, ?_⟩
    · rw [unassign_unit]
      rw [hfind2]
      simp [hob]
      exact hfresh
    · exact fun v hv hid => status_of_map_set _ _ _ _ v hv hid
    · simpa [refs_count] using hrefs

/-- Claim C6, witness: the scenario at a database with a single In Stock
unit, barcode W1, order 42, fresh OrderUnit id 100. -/
theorem C6_assign_unassign_witness :
    ∃ db1, assign_unit db_one_unit 42 "W1" 100 5 = .ok db1 ∧
      (∀ v ∈ db1.units, v.id = (mk_unit 1 "W1" none 10 0).id →
        v.status = "Assigned") ∧
      refs_count db1 (mk_unit 1 "W1" none 10 0).id = 1 ∧
      ∃ db2, unassign_unit db1 42 100 6 = .ok db2 ∧
        (∀ v ∈ db2.units, v.id = (mk_unit 1 "W1" none 10 0).id →
          v.status = "In Stock") ∧
        refs_count db2 (mk_unit 1 "W1" none 10 0).id = 0 :=
  C6_assign_unassign db_one_unit 42 "W1" (mk_unit 1 "W1" none 10 0) 100 5 6
    (by decide) (by decide) (by decide) (by decide) (by decide)

/-- Claim C7: a StockUnit and a StockItem each having an associated
OrderUnit cannot be deleted — both handlers report the in-use error and
return the database unchanged. -/
theorem C7_delete_guard (db : DB) (uid iid : Nat) (u : StockUnit)
    (it : StockItem)
    (hu : db.units.find? (fun v => v.id = uid) = some u)
    (hit : db.items.find? (fun v => v.id = iid) = some it)
    (hrefu : ∃ ou ∈ db.order_units, ou.unit_id = uid)
    (hrefi : ∃ ou ∈ db.order_units, ∃ w ∈ db.units,
      w.id = ou.unit_id ∧ w.item_id = iid) :
    delete_unit db uid = (db, some "Cannot delete: unit assigned to order.") ∧
    delete_item db iid =
      (db, some "Cannot delete: some units are assigned to orders.") := by
  constructor
  · have hany : db.order_units.any (fun ou => ou.unit_id = uid) = true := by
      rw [List.any_eq_true]
      obtain ⟨ou, hou, h⟩ := hrefu
      exact ⟨ou, hou, by simp [h]⟩
    simp [delete_unit, hu, hany]
  · have hany : (db.order_units.any (fun ou =>
        db.units.any (fun w => w.id = ou.unit_id && w.item_id = iid))) =
          true := by
      rw [List.any_eq_true]
      obtain ⟨ou, hou, w, hw, h1, h2⟩ := hrefi
      refine ⟨ou, hou, ?_⟩
      rw [List.any_eq_true]
      exact ⟨w, hw, by simp [h1, h2]⟩
    simp [delete_item, hit, hany]

/-- Claim C7, witness at a database whose single unit is assigned. -/
theorem C7_delete_guard_witness :
    delete_unit db_in_use 1 =
      (db_in_use, some "Cannot delete: unit assigned to order.") ∧
    delete_item db_in_use 10 =
      (db_in_use, some "Cannot delete: some units are assigned to orders.") :=
  C7_delete_guard db_in_use 1 10 assigned_unit widget_item
    (by decide) (by decide) (by decide) (by decide)

/-- Helper: the assigned copy of a unit is no longer available. -/
theorem assigned_not_available (item_id t : Nat) (u : StockUnit) :
    is_available item_id
      { u with status := "Assigned", last_update := t } = false := by
  simp [is_available]

/-- Helper: when at most `q` units of the item are available, the claim
loop claims exactly the available ones, leaves none available, and keeps
the list length. -/
theorem claim_units_spec (item_id now : Nat) (us : List StockUnit) :
    ∀ q : Nat, in_stock_count us item_id ≤ q →
      (claim_units item_id now q us).2.length = in_stock_count us item_id ∧
      in_stock_count (claim_units item_id now q us).1 item_id = 0 ∧
      (claim_units item_id now q us).1.length = us.length := by
  induction us with
  | nil =>
    intro q _
    cases q <;> simp [claim_units, in_stock_count]
  | cons u us ih =>
    intro q hq
    by_cases hm : is_available item_id u = true
    · have hcount : in_stock_count (u :: us) item_id =
          in_stock_count us item_id + 1 := by
        simp [in_stock_count, List.filter_cons, hm]
      cases q with
      | zero => omega
      | succ q' =>
        have hq' : in_stock_count us item_id ≤ q' := by omega
        obtain ⟨ih1, ih2, ih3⟩ := ih q' hq'
        simp only [claim_units, hm, if_pos]
        refine ⟨?_, ?_, ?_⟩
        · simp [hcount, ih1]
        · simp [in_stock_count, List.filter_cons,
            assigned_not_available item_id now u]
          simpa [in_stock_count] using ih2
        · simp [ih3]
    · have hcount : in_stock_count (u :: us) item_id =
          in_stock_count us item_id := by
        simp [in_stock_count, List.filter_cons, hm]
      cases q with
      | zero =>
        have h0 : in_stock_count (u :: us) item_id = 0 := by omega
        refine ⟨?_, ?_, ?_⟩ <;> simp [claim_units, h0]
      | succ q' =>
        have hq' : in_stock_count us item_id ≤ Nat.succ q' := by omega
        obtain ⟨ih1, ih2, ih3⟩ := ih (Nat.succ q') hq'
        simp only [claim_units, hm, if_neg]
        refine ⟨?_, ?_, ?_⟩
        · simp [hcount, ih1]
        · simp [in_stock_count, List.filter_cons, hm]
          simpa [in_stock_count] using ih2
        · simp [ih3]

/-- Helper: the generated OrderUnit rows are one per claimed unit. -/
theorem mk_order_units_length (order_id now : Nat) :
    ∀ (i : Nat) (ids : List Nat),
      (mk_order_units order_id now i ids).length = ids.length := by
  intro i ids
  induction ids generalizing i with
  | nil => simp [mk_order_units]
  | cons x xs ih => simp [mk_order_units, ih]

/-- Helper: every generated OrderUnit row belongs to the given order. -/
theorem mk_order_units_order (order_id now : Nat) :
    ∀ (i : Nat) (ids : List Nat),
      ∀ ou ∈ mk_order_units order_id now i ids, ou.order_id = order_id := by
  intro i ids
  induction ids generalizing i with
  | nil => simp [mk_order_units]
  | cons x xs ih =>
    intro ou hou
    simp only [mk_order_units, List.mem_cons] at hou
    rcases hou with h | h
    · rw [h]
    · exact ih (i + 1) ou h

/-- Helper: the claim loop on a zero quota returns the list unchanged. -/
theorem claim_units_zero (item_id now : Nat) (us : List StockUnit) :
    claim_units item_id now 0 us = (us, []) := by
  cases us <;> simp [claim_units]

/-- Helper: unfolding the claim loop at an available head unit. -/
theorem claim_units_cons_pos (item_id now q : Nat) (u : StockUnit)
    (us : List StockUnit) (hm : is_available item_id u = true) :
    claim_units item_id now (Nat.succ q) (u :: us) =
      ({ u with status := "Assigned", last_update := now } ::
          (claim_units item_id now q us).1,
        u.id :: (claim_units item_id now q us).2) := by
  simp [claim_units, hm]

/-- Helper: unfolding the claim loop at an unavailable head unit. -/
theorem claim_units_cons_neg (item_id now q : Nat) (u : StockUnit)
    (us : List StockUnit) (hm : is_available item_id u = false) :
    claim_units item_id now (Nat.succ q) (u :: us) =
      (u :: (claim_units item_id now (Nat.succ q) us).1,
        (claim_units item_id now (Nat.succ q) us).2) := by
  simp [claim_units, hm]

/-- Helper: the claim loop leaves a unit either untouched or Assigned. -/
theorem claim_units_frame (item_id now : Nat) (us : List StockUnit) :
    ∀ q, ∀ v ∈ (claim_units item_id now q us).1,
      v ∈ us ∨ v.status = "Assigned" := by
  induction us with
  | nil =>
    intro q v hv
    cases q <;> simp [claim_units] at hv
  | cons u us ih =>
    intro q v hv
    cases q with
    | zero =>
      rw [claim_units_zero] at hv
      exact Or.inl hv
    | succ q' =>
      rcases Bool.eq_false_or_eq_true (is_available item_id u) with hm | hm
      · rw [claim_units_cons_pos item_id now q' u us hm] at hv
        rcases List.mem_cons.mp hv with h | h
        · exact Or.inr (by rw [h])
        · rcases ih q' v h with h2 | h2
          · exact Or.inl (List.mem_cons_of_mem u h2)
          · exact Or.inr h2
      · rw [claim_units_cons_neg item_id now q' u us hm] at hv
        rcases List.mem_cons.mp hv with h | h
        · rw [h]
          exact Or.inl (List.mem_cons_self u us)
        · rcases ih (Nat.succ q') v h with h2 | h2
          · exact Or.inl (List.mem_cons_of_mem u h2)
          · exact Or.inr h2

/-- Helper: each claimed id belongs to a unit that the claim loop left
with status Assigned. -/
theorem claim_units_assigned (item_id now : Nat) (us : List StockUnit) :
    ∀ q, ∀ id ∈ (claim_units item_id now q us).2,
      ∃ v ∈ (claim_units item_id now q us).1,
        v.id = id ∧ v.status = "Assigned" := by
  induction us with
  | nil =>
    intro q id hid
    cases q <;> simp [claim_units] at hid
  | cons u us ih =>
    intro q id hid
    cases q with
    | zero =>
      rw [claim_units_zero] at hid
      simp at hid
    | succ q' =>
      rcases Bool.eq_false_or_eq_true (is_available item_id u) with hm | hm
      · rw [claim_units_cons_pos item_id now q' u us hm] at hid ⊢
        rcases List.mem_cons.mp hid with h | h
        · exact ⟨{ u with status := "Assigned", last_update := now },
            List.mem_cons_self _ _, by rw [h], rfl⟩
        · obtain ⟨v, hv, hvid, hvs⟩ := ih q' id h
          exact ⟨v, List.mem_cons_of_mem _ hv, hvid, hvs⟩
      · rw [claim_units_cons_neg item_id now q' u us hm] at hid ⊢
        obtain ⟨v, hv, hvid, hvs⟩ := ih (Nat.succ q') id hid
        exact ⟨v, List.mem_cons_of_mem u hv, hvid, hvs⟩

/-- Helper: every generated OrderUnit row references a claimed unit id. -/
theorem mk_order_units_unit_ids (order_id now : Nat) :
    ∀ (i : Nat) (ids : List Nat),
      ∀ ou ∈ mk_order_units order_id now i ids, ou.unit_id ∈ ids := by
  intro i ids
  induction ids generalizing i with
  | nil => simp [mk_order_units]
  | cons x xs ih =>
    intro ou hou
    simp only [mk_order_units, List.mem_cons] at hou ⊢
    rcases hou with h | h
    · exact Or.inl (by rw [h])
    · exact Or.inr (ih (i + 1) ou h)

/-- Claim C8: requesting `q` units of an item with `k < q` available
assigns exactly `k` units, flags the partial-fulfillment warning, leaves
the item with zero In Stock units, adds `k` OrderUnit rows, each for the
requested order, touches no unit other than the claimed ones, and each
new OrderUnit references a unit whose status is now Assigned. -/
theorem C8_shortfall_assignment (db : DB) (order_id item_id q ou_start now k : Nat)
    (hk : in_stock_count db.units item_id = k)
    (hlt : k < q) :
    (assign_units_line db order_id item_id q ou_start now).2.1 = k ∧
    (assign_units_line db order_id item_id q ou_start now).2.2 = true ∧
    in_stock_count
      (assign_units_line db order_id item_id q ou_start now).1.units item_id
      = 0 ∧
    (assign_units_line db order_id item_id q ou_start now).1.order_units.length
      = db.order_units.length + k ∧
    (∀ ou ∈ (assign_units_line db order_id item_id q ou_start now).1.order_units,
      ou ∈ db.order_units ∨ ou.order_id = order_id) ∧
    (∀ v ∈ (assign_units_line db order_id item_id q ou_start now).1.units,
      v ∈ db.units ∨ v.status = "Assigned") ∧
    (∀ ou ∈ (assign_units_line db order_id item_id q ou_start now).1.order_units,
      ou ∈ db.order_units ∨
        ∃ v ∈ (assign_units_line db order_id item_id q ou_start now).1.units,
          v.id = ou.unit_id ∧ v.status = "Assigned") := by
  have hle : in_stock_count db.units item_id ≤ q := by omega
  obtain ⟨h1, h2, _⟩ := claim_units_spec item_id now db.units q hle
  refine ⟨?_, ?_, ?_, ?_, ?_, ?_, ?_⟩
  · simp [assign_units_line, h1, hk]
  · simp [assign_units_line, h1, hk, hlt]
  · simpa [assign_units_line] using h2
  · simp [assign_units_line, List.length_append,
      mk_order_units_length, h1, hk]
  · intro ou hou
    simp only [assign_units_line, List.mem_append] at hou
    rcases hou with h | h
    · exact Or.inl h
    · exact Or.inr (mk_order_units_order order_id now ou_start _ ou h)
  · intro v hv
    simp only [assign_units_line] at hv
    exact claim_units_frame item_id now db.units q v hv
  · intro ou hou
    simp only [assign_units_line, List.mem_append] at hou
    rcases hou with h | h
    · exact Or.inl h
    · refine Or.inr ?_
      have hid : ou.unit_id ∈ (claim_units item_id now q db.units).2 :=
        mk_order_units_unit_ids order_id now ou_start _ ou h
      obtain ⟨v, hv, hvid, hvs⟩ :=
        claim_units_assigned item_id now db.units q ou.unit_id hid
      exact ⟨v, by simpa [assign_units_line] using hv, hvid, hvs⟩

/-- Claim C8, witness: requesting 5 units of item 10 when 3 are In Stock. -/
theorem C8_shortfall_assignment_witness :
    (assign_units_line db_one_unit 42 10 5 100 9).2.1 = 1 ∧
    (assign_units_line db_one_unit 42 10 5 100 9).2.2 = true ∧
    in_stock_count (assign_units_line db_one_unit 42 10 5 100 9).1.units 10
      = 0 ∧
    (assign_units_line db_one_unit 42 10 5 100 9).1.order_units.length =
      db_one_unit.order_units.length + 1 ∧
    (∀ ou ∈ (assign_units_line db_one_unit 42 10 5 100 9).1.order_units,
      ou ∈ db_one_unit.order_units ∨ ou.order_id = 42) ∧
    (∀ v ∈ (assign_units_line db_one_unit 42 10 5 100 9).1.units,
      v ∈ db_one_unit.units ∨ v.status = "Assigned") ∧
    (∀ ou ∈ (assign_units_line db_one_unit 42 10 5 100 9).1.order_units,
      ou ∈ db_one_unit.order_units ∨
        ∃ v ∈ (assign_units_line db_one_unit 42 10 5 100 9).1.units,
          v.id = ou.unit_id ∧ v.status = "Assigned") :=
  C8_shortfall_assignment db_one_unit 42 10 5 100 9 1 (by decide) (by decide)

/-- Claim C9: deleting an existing order succeeds, reverts every unit
referenced by one of its OrderUnits to In Stock, removes every OrderUnit
of the order, and removes the order and its order line items. -/
theorem C9_delete_order (db : DB) (order_id now : Nat) (o : Order)
    (ho : db.orders.find? (fun x => x.id = order_id) = some o) :
    (delete_order db order_id now).2 = none ∧
    (∀ u ∈ (delete_order db order_id now).1.units,
      (∃ ou ∈ db.order_units, ou.order_id = order_id ∧ ou.unit_id = u.id) →
        u.status = "In Stock") ∧
    (∀ ou ∈ (delete_order db order_id now).1.order_units,
      ou.order_id ≠ order_id) ∧
    (∀ x ∈ (delete_order db order_id now).1.orders, x.id ≠ order_id) ∧
    (∀ it ∈ (delete_order db order_id now).1.order_items,
      it.order_id ≠ order_id) := by
  refine ⟨?_, ?_, ?_, ?_, ?_⟩
  · simp [delete_order, ho]
  · intro u hu href
    simp only [delete_order, ho, List.mem_map] at hu
    obtain ⟨w, hw, rfl⟩ := hu
    by_cases hc : db.order_units.any (fun ou =>
        ou.order_id = order_id && ou.unit_id = w.id) = true
    · simp [hc]
    · exfalso
      apply hc
      rw [List.any_eq_true]
      obtain ⟨ou, hou, h1, h2⟩ := href
      refine ⟨ou, hou, ?_⟩
      simp only [hc, if_neg] at h2
      simp [h1, h2]
  · intro ou hou
    simp only [delete_order, ho, List.mem_filter] at hou
    simpa using hou.2
  · intro x hx
    simp only [delete_order, ho, List.mem_filter] at hx
    simpa using hx.2
  · intro it hit
    simp only [delete_order, ho, List.mem_filter] at hit
    simpa using hit.2

/-- Claim C9, witness: deleting order 42 from a database where it holds
units W1 and W2 and one line item. -/
theorem C9_delete_order_witness :
    (delete_order db_order42 42 9).2 = none ∧
    (∀ u ∈ (delete_order db_order42 42 9).1.units,
      (∃ ou ∈ db_order42.order_units,
        ou.order_id = 42 ∧ ou.unit_id = u.id) → u.status = "In Stock") ∧
    (∀ ou ∈ (delete_order db_order42 42 9).1.order_units,
      ou.order_id ≠ 42) ∧
    (∀ x ∈ (delete_order db_order42 42 9).1.orders, x.id ≠ 42) ∧
    (∀ it ∈ (delete_order db_order42 42 9).1.order_items,
      it.order_id ≠ 42) :=
  C9_delete_order db_order42 42 9 { sample_order with id := 42 } (by decide)

/-- Helper: appending a unit whose barcode is fresh keeps barcodes
pairwise distinct. -/
theorem barcodes_nodup_append (units : List StockUnit) (u : StockUnit)
    (h : barcodes_nodup units)
    (hnew : ∀ w ∈ units, w.barcode ≠ u.barcode) :
    barcodes_nodup (units ++ [u]) := by
  rw [barcodes_nodup, List.map_append, List.nodup_append]
  refine ⟨h, by simp, ?_⟩
  intro b hb1 hb2
  simp only [List.map_cons, List.map_nil, List.mem_singleton] at hb2
  rw [List.mem_map] at hb1
  obtain ⟨w, hw, hwb⟩ := hb1
  exact hnew w hw (by rw [hwb, hb2])

/-- Helper: one scanned add keeps barcodes pairwise distinct. -/
theorem add_unit_one_nodup (db : DB) (iid : Nat) (b bt : String)
    (e r : Option Nat) (nid now : Nat) (h : barcodes_nodup db.units) :
    barcodes_nodup (add_unit_one db iid b bt e r nid now).1.units := by
  cases hfind : db.items.find? (fun it => it.id = iid) with
  | none => simpa [add_unit_one, hfind] using h
  | some item =>
    by_cases hb : py_strip b = ""
    · simpa [add_unit_one, hfind, hb] using h
    · by_cases hdup : db.units.any (fun u => u.barcode = py_strip b) = true
      · simpa [add_unit_one, hfind, hb, hdup] using h
      · have hnew : ∀ w ∈ db.units, w.barcode ≠ py_strip b := by
          intro w hw hc
          apply hdup
          rw [List.any_eq_true]
          exact ⟨w, hw, by simp [hc]⟩
        have hres : (add_unit_one db iid b bt e r nid now).1.units =
            db.units ++ [mk_unit nid (py_strip b)
              (if py_strip bt = "" then none else some (py_strip bt)) iid now] := by
          simp [add_unit_one, hfind, hb, hdup]
        rw [hres]
        exact barcodes_nodup_append _ _ h
          (fun w hw => by simpa [mk_unit] using hnew w hw)

/-- Helper: the bulk line loop keeps barcodes pairwise distinct. -/
theorem bulk_loop_nodup (item_id now : Nat) (dflt : Option String)
    (lines : List String) :
    ∀ (units : List StockUnit) (n : Nat), barcodes_nodup units →
      barcodes_nodup (bulk_loop item_id now dflt lines units n).1 := by
  induction lines with
  | nil => intro units n h; simpa [bulk_loop] using h
  | cons line rest ih =>
    intro units n h
    cases hp : parse_bulk_line line dflt with
    | none => simpa [bulk_loop, hp] using ih units n h
    | some pr =>
      obtain ⟨bc, bn⟩ := pr
      by_cases hdup : units.any (fun u => u.barcode = bc) = true
      · simpa [bulk_loop, hp, hdup] using ih units n h
      · have hnew : ∀ w ∈ units, w.barcode ≠ bc := by
          intro w hw hc
          apply hdup
          rw [List.any_eq_true]
          exact ⟨w, hw, by simp [hc]⟩
        have h2 : barcodes_nodup (units ++ [mk_unit n bc bn item_id now]) :=
          barcodes_nodup_append _ _ h
            (fun w hw => by simpa [mk_unit] using hnew w hw)
        simpa [bulk_loop, hp, hdup] using
          ih (units ++ [mk_unit n bc bn item_id now]) (n + 1) h2

/-- Helper: one bulk paste keeps barcodes pairwise distinct. -/
theorem add_units_bulk_nodup (db : DB) (iid : Nat) (lines : List String)
    (dflt : String) (e r : Option Nat) (ids now : Nat)
    (h : barcodes_nodup db.units) :
    barcodes_nodup (add_units_bulk db iid lines dflt e r ids now).1.units := by
  cases hfind : db.items.find? (fun it => it.id = iid) with
  | none => simpa [add_units_bulk, hfind] using h
  | some item =>
    have hres : (add_units_bulk db iid lines dflt e r ids now).1.units =
        (bulk_loop iid now
          (if py_strip dflt = "" then none else some (py_strip dflt))
          lines db.units ids).1 := by
      simp [add_units_bulk, hfind]
    rw [hres]
    exact bulk_loop_nodup iid now _ lines db.units ids h

/-- Helper: any sequence of unit-creation requests keeps barcodes
pairwise distinct. -/
theorem foldl_apply_add_nodup (ops : List AddOp) :
    ∀ db : DB, barcodes_nodup db.units →
      barcodes_nodup (ops.foldl apply_add db).units := by
  induction ops with
  | nil => intro db h; simpa using h
  | cons op rest ih =>
    intro db h
    rw [List.foldl_cons]
    apply ih
    cases op with
    | one a b c d e f g => exact add_unit_one_nodup db a b c d e f g h
    | bulk a b c d e f g => exact add_units_bulk_nodup db a b c d e f g h

/-- Claim C10: with pairwise-distinct barcodes, a single add whose barcode
equals that of an existing unit of any item is refused with the
duplicate-barcode error and leaves the database unchanged, and after any
sequence of single or bulk adds the barcodes remain pairwise distinct. -/
theorem C10_barcode_uniqueness (db : DB) (ops : List AddOp)
    (iid nid now : Nat) (b bt : String) (e r : Option Nat) (it : StockItem)
    (h : barcodes_nodup db.units)
    (hb : py_strip b ≠ "")
    (hit : db.items.find? (fun x => x.id = iid) = some it)
    (hdup : ∃ u ∈ db.units, u.barcode = py_strip b) :
    add_unit_one db iid b bt e r nid now =
      (db, some "This barcode already exists.") ∧
    barcodes_nodup (ops.foldl apply_add db).units := by
  constructor
  · have hany : db.units.any (fun u => u.barcode = py_strip b) = true := by
      rw [List.any_eq_true]
      obtain ⟨u, hu, hbc⟩ := hdup
      exact ⟨u, hu, by simp [hbc]⟩
    simp [add_unit_one, hit, hb, hany]
  · exact foldl_apply_add_nodup ops db h

/-- Claim C10, witness: re-scanning barcode W1 into the one-unit database
is refused, and a mixed sequence of adds keeps barcodes distinct. -/
theorem C10_barcode_uniqueness_witness :
    add_unit_one db_one_unit 10 "W1" "" none none 5 0 =
      (db_one_unit, some "This barcode already exists.") ∧
    barcodes_nodup
      (([AddOp.one 10 "W2" "" none none 5 0,
         AddOp.bulk 10 ["W3", "W1", "W3|B7"] "" none none 6 0].foldl
          apply_add db_one_unit)).units :=
  C10_barcode_uniqueness db_one_unit
    [AddOp.one 10 "W2" "" none none 5 0,
     AddOp.bulk 10 ["W3", "W1", "W3|B7"] "" none none 6 0]
    10 5 0 "W1" "" none none widget_item
    (by rw [barcodes_nodup]; decide) (by decide) (by decide) (by decide)

end Life360
